import Mathlib

/-!
Verification of the daily blog-post generation pipeline of the `ai_blog`
repository (Django application).  The development shallowly embeds the
relevant Python source files:

* `blog/management/commands/generate_post.py` — the generation command
  (topic selection, content generation, image sourcing/storing, post
  assembly, error handling);
* `blog/models.py` — the `Post.save` override and the scheduler record;
* `blog/middleware.py` — the request-triggered daily scheduler;
* `blog/utils.py` — image download/caption helpers used by the command.

External collaborators (the generative-text API, the photo-search API,
the media host, the HTTP stack, `hashlib`, `mimetypes`, PIL, the random
source and the database write outcomes) are modelled as an explicit
environment record `Env`; every function of the repository itself is
translated directly from the Python source.  Python exceptions are
modelled by `Except`/`Option` results and explicit control flow that
mirrors the `try`/`except` structure of the source.
-/

namespace AiBlog

/-! ## Basic string helpers (models of Python `str` operations, ASCII) -/

/-- Lower-case a character list (model of Python `str.lower()` for ASCII). -/
def lowerChars (l : List Char) : List Char := l.map Char.toLower

/-- `c` is one of `a`-`z` or `0`-`9`. -/
def isLowerAlnum (c : Char) : Bool :=
  ('a' ≤ c && c ≤ 'z') || ('0' ≤ c && c ≤ '9')

/-- Replace every maximal run of characters not matching `[a-z0-9]` by a
single `-` (model of `re.sub(r'[^a-z0-9]+', '-', text)` applied to a
lower-cased string).  The boolean argument records whether we are inside
a run for which the `-` has already been emitted. -/
def subNonAlnum : Bool → List Char → List Char
  | _, [] => []
  | inSep, c :: rest =>
    if isLowerAlnum c then c :: subNonAlnum false rest
    else if inSep then subNonAlnum true rest
    else '-' :: subNonAlnum true rest

/-- Strip a given character from both ends of a character list
(model of Python `str.strip('-')`). -/
def stripChar (ch : Char) (l : List Char) : List Char :=
  ((l.dropWhile (· == ch)).reverse.dropWhile (· == ch)).reverse

/-- Model of the module-level `slugify` of `generate_post.py`:
`re.sub(r'[^a-z0-9]+', '-', text.lower()).strip('-')`. -/
def slugify (text : String) : String :=
  String.mk (stripChar '-' (subNonAlnum false (lowerChars text.data)))

/-- Strip whitespace from both ends (model of Python `str.strip()`). -/
def stripWs (l : List Char) : List Char :=
  ((l.dropWhile Char.isWhitespace).reverse.dropWhile Char.isWhitespace).reverse

/-- Model of Python `str.strip()` on `String`. -/
def pyStrip (s : String) : String := String.mk (stripWs s.data)

/-- Split into words on whitespace runs, discarding empty pieces
(model of Python `str.split()` with no argument).  The accumulator holds
the current word reversed. -/
def wordsAux : List Char → List Char → List String
  | [], cur => if cur.isEmpty then [] else [String.mk cur.reverse]
  | c :: rest, cur =>
    if c.isWhitespace then
      if cur.isEmpty then wordsAux rest []
      else String.mk cur.reverse :: wordsAux rest []
    else wordsAux rest (c :: cur)

/-- Model of Python `str.split()` (no separator argument). -/
def pyWords (s : String) : List String := wordsAux s.data []

/-- Split on a non-empty separator, fuel-driven so that the definition
reduces definitionally (model of Python `str.split(sep)`). -/
def splitOnAux (sep : List Char) : Nat → List Char → List Char → List (List Char)
  | _, [], cur => [cur.reverse]
  | 0, l, cur => [cur.reverse ++ l]
  | fuel + 1, c :: rest, cur =>
    if sep.isPrefixOf (c :: rest) then
      cur.reverse :: splitOnAux sep fuel ((c :: rest).drop sep.length) []
    else splitOnAux sep fuel rest (c :: cur)

/-- Model of Python `str.split(sep)` for a non-empty separator. -/
def pySplit (s sep : String) : List String :=
  if sep.isEmpty then [s]
  else (splitOnAux sep.data s.data.length s.data []).map String.mk

/-- Substring test on character lists (model of Python `pat in hay`). -/
def containsChars (hay pat : List Char) : Bool :=
  match hay with
  | [] => pat.isEmpty
  | _ :: t => pat.isPrefixOf hay || containsChars t pat

/-- Model of Python `pat in hay` on `String`. -/
def containsStr (hay pat : String) : Bool := containsChars hay.data pat.data

/-- Python truthiness of `a or b` for strings: `a` if non-empty else `b`. -/
def pyOrS (a b : String) : String := if a = "" then b else a

/-- Upper-case hex digit for `n < 16`. -/
def hexDigit (n : Nat) : Char :=
  if n < 10 then Char.ofNat (48 + n) else Char.ofNat (55 + n)

/-- Percent-encode a byte value as `%HH`. -/
def pctEncode (n : Nat) : String :=
  String.mk ['%', hexDigit (n / 16 % 16), hexDigit (n % 16)]

/-- Model of `urllib.parse.quote` (default `safe='/'`) for ASCII input:
alphanumerics and `_ . - ~ /` are kept, everything else percent-encoded. -/
def pyQuote (s : String) : String :=
  String.join (s.data.map (fun c =>
    if c.isAlphanum || c == '_' || c == '.' || c == '-' || c == '~' || c == '/' then
      String.mk [c]
    else pctEncode c.toNat))

/-- A single apostrophe, used inside caption text. -/
def apos : String := String.mk [Char.ofNat 39]

/-! ## Django `slugify` (from `django.utils.text`), ASCII model.
`Post.save` in `blog/models.py` uses it when the slug is empty:
remove characters outside `[\w\s-]` from the lower-cased string, then
replace runs of `[-\s]+` by `-`, then strip `-` and `_` at both ends. -/

/-- Character kept by the first substitution of Django `slugify`. -/
def djKeep (c : Char) : Bool :=
  ('a' ≤ c && c ≤ 'z') || ('0' ≤ c && c ≤ '9') || c == '_' || c.isWhitespace || c == '-'

/-- Separator characters collapsed by Django `slugify`. -/
def djSep (c : Char) : Bool := c == '-' || c.isWhitespace

/-- Collapse runs of `[-\s]+` into a single `-`. -/
def djCollapse : Bool → List Char → List Char
  | _, [] => []
  | inSep, c :: rest =>
    if djSep c then
      if inSep then djCollapse true rest
      else '-' :: djCollapse true rest
    else c :: djCollapse false rest

/-- Strip characters from both ends by a predicate. -/
def stripBy (p : Char → Bool) (l : List Char) : List Char :=
  ((l.dropWhile p).reverse.dropWhile p).reverse

/-- ASCII model of `django.utils.text.slugify`. -/
def djangoSlugify (s : String) : String :=
  String.mk (stripBy (fun c => c == '-' || c == '_')
    (djCollapse false ((lowerChars s.data).filter djKeep)))

/-! ## Data model (from `blog/models.py`) -/

/-- A row of the `Post` table.  `thumbnail`/`featured_image` model the
`CloudinaryField`s (`none` = empty field); `tagNames` models the
many-to-many `tags` relation of the row.  `is_published` defaults to
`true` and `is_featured` to `false`, as in the model definition. -/
structure PostRec where
  title : String
  slug : String
  content : String
  summary : String
  category : String
  scientific_name : String := ""
  family : String := ""
  care_difficulty : String := ""
  watering_needs : String := ""
  sunlight_requirements : String := ""
  growth_rate : String := ""
  max_height : String := ""
  blooming_season : String := ""
  harvest_time : String := ""
  video_url : String := ""
  thumbnail : Option String := none
  featured_image : Option String := none
  thumbnail_url : String := ""
  featured_image_url : String := ""
  is_published : Bool := true
  is_featured : Bool := false
  tagNames : List String := []
deriving DecidableEq, Repr

/-- A row of the `PostImage` table; `postSlug` identifies the owning post
(cascade-deleted with it). -/
structure PostImageRec where
  postSlug : String
  image : String
  image_url : String
  caption : String
  alt_text : String
  order : Nat
  image_type : String
deriving DecidableEq, Repr

/-- A row of the `Tag` table. -/
structure TagRec where
  name : String
  slug : String
deriving DecidableEq, Repr

/-- The relational store as seen by the generation pipeline. -/
structure Db where
  posts : List PostRec := []
  tags : List TagRec := []
  postImages : List PostImageRec := []
deriving DecidableEq, Repr

/-- Replace the row whose slug matches `p.slug` by `p`
(model of `post.save()` on an already-inserted row, an SQL UPDATE). -/
def dbUpdatePost (db : Db) (p : PostRec) : Db :=
  { db with posts := db.posts.map (fun q => if q.slug == p.slug then p else q) }

/-- Set the many-to-many tag names of the post with the given slug
(model of `post.tags.set(tags)`). -/
def dbSetPostTags (db : Db) (slug : String) (names : List String) : Db :=
  { db with posts := db.posts.map (fun q =>
      if q.slug == slug then { q with tagNames := names } else q) }

/-- Delete the post with the given slug and cascade-delete its images
(model of `post.delete()`; `PostImage.post` is `on_delete=CASCADE`). -/
def dbDeletePost (db : Db) (slug : String) : Db :=
  { db with posts := db.posts.filter (fun q => !(q.slug == slug)),
            postImages := db.postImages.filter (fun i => !(i.postSlug == slug)) }

/-! ## External collaborators: the environment -/

/-- A photo record returned by the Unsplash search API (the fields the
code reads, plus the photo tags, which the code does **not** read). -/
structure Photo where
  regular : String
  description : Option String := none
  alt_description : Option String := none
  id : String := ""
  photoTags : List String := []
deriving DecidableEq, Repr

/-- The dictionary parsed out of the generative-text response, at the
granularity read by `Command.handle`: `none` means the key is absent
(`data['k']` raises `KeyError`, `data.get('k', d)` yields `d`). -/
structure GenData where
  title : Option String := none
  content : Option String := none
  summary : Option String := none
  scientific_name : Option String := none
  family : Option String := none
  care_difficulty : Option String := none
  watering_needs : Option String := none
  sunlight_requirements : Option String := none
  growth_rate : Option String := none
  max_height : Option String := none
  blooming_season : Option String := none
  harvest_time : Option String := none
  tags : Option (List String) := none
  video_search_query : Option String := none
deriving DecidableEq, Repr

/-- Response of an image download (`requests.get` content and
`content-type` header). -/
structure DlResp where
  content : String
  contentType : String
deriving DecidableEq, Repr

/-- An in-memory file (`ContentFile`): payload plus name. -/
structure FileRec where
  content : String
  name : String
deriving DecidableEq, Repr

/-- Outcomes of all external effects during one run of the pipeline.
Each field stands for one collaborator outside the repository:
`unsplash` for the photo-search HTTP call (query and `per_page` as sent),
`geminiText` for `model.generate_content` on the prompt built from topic
and category, `jsonLoads` for `json.loads` (with `none` covering a parse
error or a falsy result), `cloudinaryUpload` for
`cloudinary.uploader.upload`, `httpGetImage`/`md5hex`/`guessExt` for the
pieces of `utils.download_image`, `pilOptimize` for the PIL body of
`utils.optimize_image`, `storageSave` for the `CloudinaryField.save`
storage upload, the `...Ok` booleans for database write outcomes, and
`randIndex` for `random.choice`. -/
structure Env where
  day : Nat
  accessKey : Option String := some "unsplash-key"
  unsplash : String → Nat → Except Unit (List Photo) := fun _ _ => .ok []
  geminiText : String → String → Except Unit String := fun _ _ => .error ()
  jsonLoads : String → Option GenData := fun _ => none
  cloudinaryUpload : String → String → Except Unit String := fun _ _ => .error ()
  httpGetImage : String → Except Unit DlResp := fun _ => .error ()
  md5hex : String → String := fun _ => "0123456789abcdef0123456789abcdef"
  guessExt : String → String := fun _ => ""
  pilOptimize : FileRec → Except Unit FileRec := fun f => .ok f
  storageSave : String → FileRec → Except Unit String := fun _ _ => .error ()
  postInsertOk : Bool := true
  postUpdateOk : Bool := true
  postImageSaveOk : Bool := true
  tagsSetOk : Bool := true
  cloudNameCfg : String := "demo"
  randIndex : Nat → Nat := fun _ => 0

/-- Model of `random.choice xs` driven by the environment's random
source (total: returns `""` on an empty list, which never occurs in the
source's caption tables). -/
def pyChoice (env : Env) (xs : List String) : String :=
  xs.getD (env.randIndex xs.length % xs.length) ""

/-! ## `Post.save` (from `blog/models.py`, lines 143-155) -/

/-- The thumbnail placeholder URL built in `Post.save`. -/
def placeholderThumb (cloudName : String) : String :=
  "https://res.cloudinary.com/" ++ cloudName ++ "/image/upload/v1/plant-placeholder.jpg"

/-- The featured-image placeholder URL built in `Post.save`. -/
def placeholderFeatured (cloudName : String) : String :=
  "https://res.cloudinary.com/" ++ cloudName ++ "/image/upload/v1/plant-featured-placeholder.jpg"

/-- Failure of the field-defaulting part of `Post.save`. -/
inductive SaveErr where
  | nameError
deriving DecidableEq, Repr

/-- Model of the `Post.save` override: derive the slug from the title if
empty; if both thumbnail fields are empty, bind `cloudinary_cloud_name`
(from config, default `demo`) and set the thumbnail placeholder; if both
featured fields are empty, build the featured placeholder from
`cloudinary_cloud_name` — which is *unbound* when the first branch did
not run, so Python raises `UnboundLocalError` (a `NameError`), modelled
as `SaveErr.nameError`.  The database write itself is performed by the
caller. -/
def postModelSave (cloudCfg : String) (p : PostRec) : Except SaveErr PostRec :=
  let p1 := if p.slug = "" then { p with slug := djangoSlugify p.title } else p
  if p1.thumbnail.isNone && p1.thumbnail_url = "" then
    let cn := cloudCfg
    let p2 := { p1 with thumbnail_url := placeholderThumb cn }
    if p2.featured_image.isNone && p2.featured_image_url = "" then
      .ok { p2 with featured_image_url := placeholderFeatured cn }
    else .ok p2
  else
    if p1.featured_image.isNone && p1.featured_image_url = "" then
      .error .nameError
    else .ok p1

/-! ## Fixed topic tables (from `Command.get_daily_topics`) -/

/-- The table returned by `get_daily_topics`, in Python dict insertion
order. -/
def get_daily_topics : List (String × List String) :=
  [ ("plants",
     [ "Monstera Deliciosa Care Guide", "Snake Plant Benefits and Care",
       "Pothos Plant Propagation", "ZZ Plant Care Tips",
       "Fiddle Leaf Fig Care", "Peace Lily Care Guide",
       "Aloe Vera Plant Benefits", "Spider Plant Care",
       "Philodendron Care Tips", "Calathea Plant Care",
       "Bamboo Plant Care", "Succulent Care Guide",
       "Cactus Care Tips", "Fern Plant Care", "Palm Tree Care" ]),
    ("flowers",
     [ "Rose Care and Maintenance", "Orchid Care Guide",
       "Tulip Growing Tips", "Sunflower Care", "Lavender Plant Care",
       "Daisy Flower Care", "Peony Care Guide", "Hydrangea Care Tips",
       "Daffodil Growing Guide", "Iris Flower Care", "Carnation Care",
       "Chrysanthemum Care", "Azalea Care Guide", "Camellia Care Tips",
       "Gardenia Care" ]),
    ("fruits",
     [ "Strawberry Growing Guide", "Tomato Plant Care",
       "Citrus Tree Care", "Apple Tree Maintenance",
       "Blueberry Bush Care", "Raspberry Plant Care", "Grape Vine Care",
       "Peach Tree Care", "Cherry Tree Care", "Plum Tree Care",
       "Pear Tree Care", "Fig Tree Care", "Pomegranate Tree Care",
       "Avocado Tree Care", "Mango Tree Care" ]),
    ("gardening",
     [ "Organic Gardening Tips", "Container Gardening Guide",
       "Indoor Gardening Tips", "Garden Soil Preparation",
       "Fertilizer Guide", "Pest Control Methods", "Pruning Techniques",
       "Seed Starting Guide", "Garden Planning Tips",
       "Watering Techniques", "Composting Guide", "Garden Tools Guide",
       "Seasonal Gardening Tips", "Vertical Gardening",
       "Herb Garden Care" ]),
    ("care",
     [ "Plant Watering Guide", "Light Requirements for Plants",
       "Temperature Control for Plants", "Humidity for Indoor Plants",
       "Potting Mix Guide", "Repotting Plants",
       "Plant Disease Prevention", "Fertilizing Schedule",
       "Pruning Houseplants", "Plant Propagation Methods",
       "Seasonal Plant Care", "Plant Pest Management",
       "Root Rot Prevention", "Leaf Care Tips", "Plant Nutrition Guide" ]) ]

/-- `list(topics.keys())` as computed in `handle`. -/
def categoriesList : List String := get_daily_topics.map Prod.fst

/-- `topics[category]` (`[]` stands for the `KeyError` case, which the
argparse `choices` restriction prevents in the source). -/
def topicsFor (category : String) : List String :=
  ((get_daily_topics.find? (fun p => p.1 == category)).map Prod.snd).getD []

/-- Category resolution in `handle`: the explicit `--category` argument
if given, otherwise `categories[(today.day - 1) % len(categories)]`. -/
def resolveCategory (day : Nat) (copt : Option String) : String :=
  match copt with
  | some c => c
  | none => categoriesList.getD ((day - 1) % categoriesList.length) ""

/-- Topic resolution in `handle`:
`topic_list[(today.day - 1) % len(topic_list)]`. -/
def resolveTopic (day : Nat) (category : String) : String :=
  let topic_list := topicsFor category
  topic_list.getD ((day - 1) % topic_list.length) ""

/-! ## Caption helpers (from `blog/utils.py`) -/

/-- Lower-case a string. -/
def lowerStr (s : String) : String := String.mk (lowerChars s.data)

/-- The `section_captions` table of `utils.create_image_captions`. -/
def section_captions (plant : String) : List (String × List String) :=
  [ ("Light Requirements",
     [ "Ideal lighting setup for " ++ plant,
       plant ++ " in perfect sunlight conditions",
       "Proper light exposure for healthy " ++ plant ]),
    ("Care Difficulty",
     [ "Understanding " ++ plant ++ " care requirements",
       "Skill level needed for " ++ plant ++ " maintenance",
       plant ++ " difficulty assessment" ]),
    ("Watering Needs",
     [ "Proper watering technique for " ++ plant,
       "How to water " ++ plant ++ " correctly",
       "Moisture needs of " ++ plant ++ " plants" ]),
    ("Soil and Potting",
     [ "Best soil mix for " ++ plant,
       "Potting requirements for " ++ plant,
       "Root system and soil needs for " ++ plant ]),
    ("Temperature and Humidity",
     [ "Climate conditions for " ++ plant,
       "Humidity preferences of " ++ plant,
       "Temperature range for thriving " ++ plant ]),
    ("Growth Rate and Maximum Height",
     [ "Growth timeline of " ++ plant,
       "Mature size expectations for " ++ plant,
       "Tracking " ++ plant ++ apos ++ "s development" ]),
    ("Troubleshooting Common Issues",
     [ "Solving " ++ plant ++ " plant problems",
       "Common " ++ plant ++ " issues and solutions",
       "Reviving struggling " ++ plant ]),
    ("Fertilizing",
     [ "Feeding schedule for " ++ plant,
       "Nutrient requirements of " ++ plant,
       "Best fertilizers for " ++ plant ]),
    ("Cleaning",
     [ "Proper " ++ plant ++ " leaf maintenance",
       "Dusting and cleaning " ++ plant ++ " foliage",
       "Leaf care for shiny " ++ plant ++ " leaves" ]),
    ("Benefits",
     [ "Health benefits of " ++ plant,
       "Why " ++ plant ++ " makes a great houseplant",
       "Advantages of growing " ++ plant ]) ]

/-- The `type_captions` table of `utils.create_image_captions`, with the
category-specific overrides for `flowers` and `fruits` applied. -/
def type_captions (plant context : String) : List (String × List String) :=
  let overview :=
    if context = "flowers" then
      [ "Beautiful " ++ plant ++ " flowers",
        plant ++ " in full bloom",
        "Colorful " ++ plant ++ " display" ]
    else if context = "fruits" then
      [ "Fresh " ++ plant ++ " fruits",
        "Ripe " ++ plant ++ " ready for harvest",
        plant ++ " fruit on the tree" ]
    else
      [ "Overview of " ++ plant ++ " plant",
        "Full view of healthy " ++ plant,
        plant ++ " in natural environment" ]
  [ ("overview", overview),
    ("care",
     [ "Caring for " ++ plant ++ " plant",
       "Maintenance tips for " ++ plant,
       plant ++ " care techniques" ]),
    ("closeup",
     [ "Close-up of " ++ plant ++ " details",
       "Detailed view of " ++ plant,
       "Intricate details of " ++ plant ]),
    ("indoor",
     [ plant ++ " as indoor plant",
       "Indoor " ++ plant ++ " decoration",
       "Growing " ++ plant ++ " inside home" ]),
    ("healthy",
     [ "Healthy " ++ plant ++ " specimen",
       "Thriving " ++ plant ++ " example",
       "Vibrant " ++ plant ++ " in peak condition" ]),
    ("decor",
     [ plant ++ " in home decor",
       "Styling with " ++ plant,
       "Decorative use of " ++ plant ]) ]

/-- Model of `utils.create_image_captions(plant_name, context, arg)`:
first scan the section table for a section name occurring (lower-cased)
inside `arg`, then fall back to the image-type table, then to
`"{plant} plant"`. -/
def create_image_captions (env : Env) (plant context arg : String) : String :=
  match (section_captions plant).find?
      (fun sc => containsStr (lowerStr arg) (lowerStr sc.1)) with
  | some sc => pyChoice env sc.2
  | none =>
    let tc := type_captions plant context
    pyChoice env ((((tc.find? (fun p => p.1 == arg)).map Prod.snd)).getD
      [plant ++ " plant"])

/-- The per-category alt-text tables of `utils.generate_alt_text`. -/
def alt_texts (plant : String) : List (String × List (String × String)) :=
  [ ("plants",
     [ ("overview", plant ++ " plant in natural environment"),
       ("care", plant ++ " plant care and maintenance"),
       ("closeup", "Close-up view of " ++ plant ++ " plant details"),
       ("indoor", plant ++ " plant as indoor decoration"),
       ("healthy", "Healthy " ++ plant ++ " plant specimen"),
       ("decor", plant ++ " plant in home decor setting") ]),
    ("flowers",
     [ ("overview", plant ++ " flowers in full bloom"),
       ("care", plant ++ " flower care guide"),
       ("closeup", "Close-up of " ++ plant ++ " flower petals"),
       ("garden", plant ++ " flowers in garden setting"),
       ("bouquet", plant ++ " flower arrangement"),
       ("field", "Field of " ++ plant ++ " flowers") ]),
    ("fruits",
     [ ("overview", "Ripe " ++ plant ++ " fruits on tree"),
       ("care", plant ++ " fruit growing guide"),
       ("closeup", "Close-up of " ++ plant ++ " fruit details"),
       ("tree", plant ++ " tree with fruits"),
       ("ripe", "Ripe " ++ plant ++ " fruits ready for harvest"),
       ("fresh", "Fresh " ++ plant ++ " fruits") ]) ]

/-- Model of `utils.generate_alt_text(plant_name, category, image_type)`.
Categories other than the three tabled ones fall back to `plants`; an
unknown image type falls back to `"{plant} plant image"`. -/
def generate_alt_text (plant category image_type : String) : String :=
  let tbl := alt_texts plant
  let category_alts :=
    (((tbl.find? (fun p => p.1 == category)).map Prod.snd)).getD
      ((((tbl.find? (fun p => p.1 == "plants")).map Prod.snd)).getD [])
  (((category_alts.find? (fun p => p.1 == image_type)).map Prod.snd)).getD
    (plant ++ " plant image")

/-- Model of `utils.download_image(url)`: HTTP GET, md5-derived unique
filename, extension guessed from the `content-type` header with `.jpg`
fallback; any error yields `None` (here `none`). -/
def download_image (env : Env) (url : String) : Option (FileRec × String) :=
  match env.httpGetImage url with
  | .error _ => none
  | .ok resp =>
    let ext := pyOrS (env.guessExt resp.contentType) ".jpg"
    let filename := "plant-" ++ String.mk ((env.md5hex url).data.take 12) ++ ext
    some (⟨resp.content, filename⟩, filename)

/-- Model of `utils.optimize_image`: the PIL pipeline on success, the
original file unchanged when PIL raises. -/
def optimize_image (env : Env) (f : FileRec) : FileRec :=
  match env.pilOptimize f with
  | .ok g => g
  | .error _ => f

/-! ## The generation command (from
`blog/management/commands/generate_post.py`) -/

/-- The record built for each photo by `Command.get_unsplash_images`. -/
structure ImageInfo where
  url : String
  description : String
  id : String
deriving DecidableEq, Repr

/-- Model of `Command.get_unsplash_images(query, count)`: with an absent
or empty access key return `[]`; send one search request with
`per_page = count` and the query augmented by
`" plant|foliage|leaf|flower|fruit|botanical"`; on any HTTP error return
`[]`; otherwise map the first `count` results, taking the description
from `description or alt_description or query`. -/
def get_unsplash_images (env : Env) (query : String) (count : Nat) :
    List ImageInfo :=
  match env.accessKey with
  | none => []
  | some key =>
    if key = "" then []
    else
      match env.unsplash
          (query ++ " plant|foliage|leaf|flower|fruit|botanical") count with
      | .error _ => []
      | .ok results =>
        (results.take count).map (fun photo =>
          { url := photo.regular
            description := pyOrS (photo.description.getD "")
              (pyOrS (photo.alt_description.getD "") query)
            id := photo.id })

/-- Model of `Command.upload_to_cloudinary(image_url, public_id)`: the
hosted `secure_url` on success, `None` (logged as error) on any upload
exception. -/
def upload_to_cloudinary (env : Env) (image_url public_id : String) :
    Option String :=
  match env.cloudinaryUpload image_url public_id with
  | .ok secure => some secure
  | .error _ => none

/-- Model of `Command.download_and_store_image`: build the public id
`{slugify(post.title)}-{image_type}-{order}`, upload; on upload failure
log a warning and return `None` with the store untouched; on success
create and save a `PostImage` row (a failing row save is caught by the
surrounding `except` and also yields `None` with the store untouched). -/
def download_and_store_image (env : Env) (image_url : String) (post : PostRec)
    (caption alt_text : String) (order : Nat) (image_type : String) (db : Db) :
    Option PostImageRec × Db :=
  let public_id := slugify post.title ++ "-" ++ image_type ++ "-" ++ toString order
  match upload_to_cloudinary env image_url public_id with
  | none => (none, db)
  | some curl =>
    let pimg : PostImageRec :=
      ⟨post.slug, curl, curl, caption, alt_text, order, image_type⟩
    if env.postImageSaveOk then
      (some pimg, { db with postImages := db.postImages ++ [pimg] })
    else (none, db)

/-- Model of the *live* `Command.download_and_store_main_images` (the
second definition in the class body, which shadows the first): fetch one
photo per slot, download, optimize, save into the Cloudinary file field
(`save=False`, no row write), record the source URL, then `post.save()`;
every exception is caught by the function's own `except`, keeping any
in-memory field mutations made so far and leaving the stored row
untouched.  Returns the (possibly mutated) in-memory post and the store.
The Python function returns `None`, so its caller's
`if not ...` branch always merely logs a warning.

`mainThumbStep` is the thumbnail slot: fetch one photo for
`"{plant_name} {category}"`, download, optimize, save into the
`thumbnail` Cloudinary field (`save=False`), record the source URL in
`thumbnail_url`.  The boolean is `true` when the storage upload raised. -/
def mainThumbStep (env : Env) (post : PostRec) (plant category : String) :
    PostRec × Bool :=
  match (get_unsplash_images env (plant ++ " " ++ category) 1).head? with
  | none => (post, false)
  | some t1 =>
    match download_image env t1.url with
    | none => (post, false)
    | some (cf, filename) =>
      let opt := optimize_image env cf
      match env.storageSave filename opt with
      | .error _ => (post, true)
      | .ok ref => ({ post with thumbnail := some ref, thumbnail_url := t1.url }, false)

/-- The featured-image slot of the live
`Command.download_and_store_main_images`; same shape as the thumbnail
slot with query `"{plant_name} close up"`. -/
def mainFeatStep (env : Env) (p1 : PostRec) (plant : String) : PostRec × Bool :=
  match (get_unsplash_images env (plant ++ " close up") 1).head? with
  | none => (p1, false)
  | some f1 =>
    match download_image env f1.url with
    | none => (p1, false)
    | some (cf, filename) =>
      let opt := optimize_image env cf
      match env.storageSave filename opt with
      | .error _ => (p1, true)
      | .ok ref => ({ p1 with featured_image := some ref, featured_image_url := f1.url }, false)

/-- The two slots followed by `post.save()`, under the function's own
catch-all `except`: a raise (`true` flag) aborts the remaining steps,
keeping in-memory mutations and leaving the stored row untouched. -/
def download_and_store_main_images (env : Env) (post : PostRec)
    (plant category : String) (db : Db) : PostRec × Db :=
  let t := mainThumbStep env post plant category
  if t.2 then (t.1, db)
  else
    let f := mainFeatStep env t.1 plant
    if f.2 then (f.1, db)
    else
      match postModelSave env.cloudNameCfg f.1 with
      | .error _ => (f.1, db)
      | .ok p3 => if env.postUpdateOk then (p3, dbUpdatePost db p3) else (p3, db)

/-- Model of `Command.get_youtube_video(query)`: a YouTube search URL
for `"{query} plant care guide"`. -/
def get_youtube_video (query : String) : String :=
  "https://www.youtube.com/results?search_query=" ++
    pyQuote (query ++ " plant care guide")

/-- The code-fence stripping of `Command.generate_post_content`. -/
def stripFences (content : String) : String :=
  if containsStr content "```json" then
    (pySplit ((pySplit content "```json").getD 1 "") "```").headD ""
  else if containsStr content "```" then
    (pySplit content "```").getD 1 ""
  else content

/-- Model of `Command.generate_post_content(topic, category)`: call the
generative model on the prompt built from topic and category, strip
markdown code fences, `json.loads` the stripped text; any exception
(network/API error, parse failure) yields `None`. -/
def generate_post_content (env : Env) (topic category : String) :
    Option GenData :=
  match env.geminiText topic category with
  | .error _ => none
  | .ok text => env.jsonLoads (pyStrip (stripFences text))

/-- Model of one `Tag.objects.get_or_create` round of
`Command.create_or_get_tags`: reuse the row with the same name; else
create one with `slugify(name)` as slug; on a slug-uniqueness collision
fall back to the uniquified slug `{slug}-{len(Tag.objects.all())}`. -/
def createOrGetOneTag (db : Db) (name : String) : Db × TagRec :=
  match db.tags.find? (fun t => t.name == name) with
  | some t => (db, t)
  | none =>
    let slug := slugify name
    if db.tags.any (fun t => t.slug == slug) then
      let t : TagRec := ⟨name, slug ++ "-" ++ toString db.tags.length⟩
      ({ db with tags := db.tags ++ [t] }, t)
    else
      let t : TagRec := ⟨name, slug⟩
      ({ db with tags := db.tags ++ [t] }, t)

/-- Model of `Command.create_or_get_tags(tag_names)`. -/
def create_or_get_tags (db : Db) : List String → Db × List TagRec
  | [] => (db, [])
  | n :: rest =>
    let r1 := createOrGetOneTag db n
    let r2 := create_or_get_tags r1.1 rest
    (r2.1, r1.2 :: r2.2)

/-- The fixed `image_types` list of
`Command.download_and_store_post_images`. -/
def image_types : List String :=
  ["overview", "care", "closeup", "indoor", "healthy", "decor"]

/-- The enumerated loop body of `Command.download_and_store_post_images`
(`i` is the `enumerate` index; the stored order is `i + 1`). -/
def dpsiGo (env : Env) (post : PostRec) (plant category : String) :
    Nat → List String → Db → List PostImageRec × Db
  | _, [], db => ([], db)
  | i, ty :: rest, db =>
    match (get_unsplash_images env (plant ++ " " ++ ty) 1).head? with
    | none => dpsiGo env post plant category (i + 1) rest db
    | some image_data =>
      let caption := create_image_captions env plant category ty
      let alt := generate_alt_text plant category ty
      let r1 := download_and_store_image env image_data.url post
        caption alt (i + 1) ty db
      let r2 := dpsiGo env post plant category (i + 1) rest r1.2
      match r1.1 with
      | some pimg => (pimg :: r2.1, r2.2)
      | none => (r2.1, r2.2)

/-- Model of `Command.download_and_store_post_images`. -/
def download_and_store_post_images (env : Env) (post : PostRec)
    (plant category : String) (db : Db) : List PostImageRec × Db :=
  dpsiGo env post plant category 0 image_types db

/-- The observable outcome of one `Command.handle` run. -/
inductive Outcome where
  | alreadyExists
  | genFailed
  | success
  | failed
deriving DecidableEq, Repr

/-- Final store, outcome, and whether the content generator was
invoked during the run. -/
structure RunResult where
  db : Db
  outcome : Outcome
  generatorCalled : Bool
deriving DecidableEq, Repr

/-- The command-line arguments of `generate_post`
(argparse restricts `--category` to the five valid category names). -/
structure Kwargs where
  category : Option String := none
  force : Bool := false
deriving DecidableEq, Repr

/-- The `Post(...)` constructor call of `Command.handle`: required
fields from the generated record, `.get(..., '')` defaults for the
optional ones, all image fields empty, `is_published` defaulting to
`true` (the command never sets it). -/
def assembledPost (data : GenData) (title content summary category slug
    video_url : String) : PostRec :=
  { title := title, slug := slug, content := content, summary := summary,
    category := category,
    scientific_name := data.scientific_name.getD "",
    family := data.family.getD "",
    care_difficulty := data.care_difficulty.getD "",
    watering_needs := data.watering_needs.getD "",
    sunlight_requirements := data.sunlight_requirements.getD "",
    growth_rate := data.growth_rate.getD "",
    max_height := data.max_height.getD "",
    blooming_season := data.blooming_season.getD "",
    harvest_time := data.harvest_time.getD "",
    video_url := video_url }

/-- Model of `Command.handle`, mirroring its `try`/`except` structure:

* duplicate-slug check before anything else (no-op unless `--force`);
* content generation; a falsy result aborts with nothing persisted;
* tag rows are resolved/created *before* the `Post` is constructed;
* a missing required field (`data['title']`, `data['content']`,
  `data['summary']`) raises `KeyError` before `post` is bound, so the
  outer handler neither deletes anything nor undoes the tag rows;
* a failing initial post write leaves `post.pk` falsy, so the outer
  handler does not delete (nothing was persisted);
* after a successful write, image steps never raise; a failing
  `post.tags.set` raises in the inner `try`, whose handler deletes the
  post (cascading to its images) and re-raises into the outer handler
  (which finds `post.pk` already cleared). -/
def handle (env : Env) (kw : Kwargs) (db : Db) : RunResult :=
  let category := resolveCategory env.day kw.category
  let topic := resolveTopic env.day category
  let slug := slugify topic
  if db.posts.any (fun p => p.slug == slug) && !kw.force then
    ⟨db, .alreadyExists, false⟩
  else
    match generate_post_content env topic category with
    | none => ⟨db, .genFailed, true⟩
    | some data =>
      let plant_name := (pyWords topic).headD ""
      let video_url := get_youtube_video (data.video_search_query.getD topic)
      let tagsRes := create_or_get_tags db (data.tags.getD [])
      let db1 := tagsRes.1
      match data.title, data.content, data.summary with
      | some title, some content, some summary =>
        let post : PostRec :=
          assembledPost data title content summary category slug video_url
        match postModelSave env.cloudNameCfg post with
        | .error _ => ⟨db1, .failed, true⟩
        | .ok post1 =>
          if !env.postInsertOk || db1.posts.any (fun p => p.slug == post1.slug) then
            ⟨db1, .failed, true⟩
          else
            let db2 := { db1 with posts := db1.posts ++ [post1] }
            let mainRes :=
              download_and_store_main_images env post1 plant_name category db2
            if env.tagsSetOk then
              let db4 := dbSetPostTags mainRes.2 slug (tagsRes.2.map TagRec.name)
              let imgsRes :=
                download_and_store_post_images env mainRes.1 plant_name category db4
              ⟨imgsRes.2, .success, true⟩
            else
              ⟨dbDeletePost mainRes.2 slug, .failed, true⟩
      | _, _, _ => ⟨db1, .failed, true⟩

/-! ## Scheduler (from `blog/middleware.py` and `blog/models.py`) -/

/-- A timestamp: calendar-date ordinal plus time of day.  `date()`
comparison in the source compares only the `day` component. -/
structure DateTime where
  day : Nat
  tod : Nat := 0
deriving DecidableEq, Repr

/-- The singleton `PostScheduler` row. -/
structure SchedState where
  last_run : DateTime
  is_running : Bool := false
deriving DecidableEq, Repr

/-- The gating condition of `DailyPostScheduler.__call__`:
`scheduler.last_run.date() < timezone.now().date() and not
scheduler.is_running`. -/
def shouldRun (s : SchedState) (now : DateTime) : Bool :=
  s.last_run.day < now.day && !s.is_running

/-- The assembler as seen by the middleware: it either returns normally
or raises, leaving some store behind. -/
inductive AsmOutcome where
  | ok (r : RunResult)
  | raised (db : Db)

/-- Model of `DailyPostScheduler.__call__` around an arbitrary assembler:
when the gate is open, set `is_running := true`, run the assembler, and
in the `finally` block always reset `is_running := false` and set
`last_run` to the end-of-run time — whether the assembler returned or
raised.  The boolean result records whether an exception propagates out
of the middleware body. -/
def middlewareRun (s0 : SchedState) (now nowEnd : DateTime)
    (asm : Db → AsmOutcome) (db : Db) : SchedState × Db × Bool :=
  if shouldRun s0 now then
    let s1 := { s0 with is_running := true }
    match asm db with
    | .ok r => ({ s1 with is_running := false, last_run := nowEnd }, r.db, false)
    | .raised db2 => ({ s1 with is_running := false, last_run := nowEnd }, db2, true)
  else (s0, db, false)

/-- `DailyPostScheduler.__call__` instantiated with the real command,
`Command().handle()` (whose own outer `except` swallows failures, so it
never raises). -/
def dailyPostSchedulerCall (env : Env) (s0 : SchedState)
    (now nowEnd : DateTime) (db : Db) : SchedState × Db × Bool :=
  middlewareRun s0 now nowEnd (fun d => .ok (handle env ⟨none, false⟩ d)) db

/-! ## Helper lemmas -/

lemma createOrGetOneTag_state (db : Db) (n : String) :
    (createOrGetOneTag db n).1.posts = db.posts ∧
    (createOrGetOneTag db n).1.postImages = db.postImages := by
  unfold createOrGetOneTag
  split
  · exact ⟨rfl, rfl⟩
  · dsimp only
    split <;> exact ⟨rfl, rfl⟩

lemma create_or_get_tags_state (ns : List String) (db : Db) :
    (create_or_get_tags db ns).1.posts = db.posts ∧
    (create_or_get_tags db ns).1.postImages = db.postImages := by
  induction ns generalizing db with
  | nil => exact ⟨rfl, rfl⟩
  | cons n rest ih =>
    have h1 := createOrGetOneTag_state db n
    have h2 := ih (createOrGetOneTag db n).1
    simp only [create_or_get_tags]
    exact ⟨h2.1.trans h1.1, h2.2.trans h1.2⟩

lemma postModelSave_fresh (c : String) (p : PostRec) (hs : p.slug ≠ "")
    (h1 : p.thumbnail = none) (h2 : p.thumbnail_url = "")
    (h3 : p.featured_image = none) (h4 : p.featured_image_url = "") :
    postModelSave c p =
      .ok { p with thumbnail_url := placeholderThumb c,
                   featured_image_url := placeholderFeatured c } := by
  unfold postModelSave
  simp [hs, h1, h2, h3, h4]

lemma postModelSave_keep (c : String) (p : PostRec) (hs : p.slug ≠ "")
    (h2 : p.thumbnail_url ≠ "") (h4 : p.featured_image_url ≠ "") :
    postModelSave c p = .ok p := by
  unfold postModelSave
  simp [hs, h2, h4]

lemma mainThumbStep_storage_fail (env : Env) (post : PostRec)
    (plant category : String)
    (hS : ∀ f c, env.storageSave f c = Except.error ()) :
    (mainThumbStep env post plant category).1 = post := by
  unfold mainThumbStep
  split
  · rfl
  · split
    · rfl
    · simp [hS]

lemma mainFeatStep_storage_fail (env : Env) (post : PostRec) (plant : String)
    (hS : ∀ f c, env.storageSave f c = Except.error ()) :
    (mainFeatStep env post plant).1 = post := by
  unfold mainFeatStep
  split
  · rfl
  · split
    · rfl
    · simp [hS]

lemma dmi_storage_fail (env : Env) (post : PostRec) (plant category : String)
    (db : Db)
    (hS : ∀ f c, env.storageSave f c = Except.error ())
    (hs : post.slug ≠ "") (h2 : post.thumbnail_url ≠ "")
    (h4 : post.featured_image_url ≠ "") :
    download_and_store_main_images env post plant category db = (post, db) ∨
    download_and_store_main_images env post plant category db =
      (post, dbUpdatePost db post) := by
  unfold download_and_store_main_images
  dsimp only
  rw [mainThumbStep_storage_fail env post plant category hS]
  rw [mainFeatStep_storage_fail env post plant hS]
  rw [postModelSave_keep env.cloudNameCfg post hs h2 h4]
  cases hv : (mainThumbStep env post plant category).2
  · cases hw : (mainFeatStep env post plant).2
    · cases hu : env.postUpdateOk <;> simp [hv, hw, hu]
    · simp [hv, hw]
  · simp [hv]

lemma download_and_store_image_upload_fail (env : Env)
    (hU : ∀ u p, env.cloudinaryUpload u p = Except.error ())
    (url : String) (post : PostRec) (caption alt : String) (order : Nat)
    (ty : String) (db : Db) :
    download_and_store_image env url post caption alt order ty db =
      (none, db) := by
  unfold download_and_store_image upload_to_cloudinary
  dsimp only
  rw [hU]

lemma dpsiGo_upload_fail (env : Env)
    (hU : ∀ u p, env.cloudinaryUpload u p = Except.error ())
    (post : PostRec) (plant category : String) :
    ∀ (tys : List String) (i : Nat) (db : Db),
      dpsiGo env post plant category i tys db = ([], db) := by
  intro tys
  induction tys with
  | nil => intro i db; rfl
  | cons ty rest ih =>
    intro i db
    unfold dpsiGo
    cases hh : (get_unsplash_images env (plant ++ " " ++ ty) 1).head?
    · simp [ih]
    · simp [download_and_store_image_upload_fail env hU, ih]

lemma download_and_store_image_state (env : Env) (url : String)
    (post : PostRec) (caption alt : String) (order : Nat) (ty : String)
    (db : Db) :
    (download_and_store_image env url post caption alt order ty db).2.posts =
      db.posts ∧
    (download_and_store_image env url post caption alt order ty db).2.tags =
      db.tags := by
  unfold download_and_store_image
  dsimp only
  split
  · exact ⟨rfl, rfl⟩
  · split <;> exact ⟨rfl, rfl⟩

lemma dpsiGo_state (env : Env) (post : PostRec) (plant category : String) :
    ∀ (tys : List String) (i : Nat) (db : Db),
      (dpsiGo env post plant category i tys db).2.posts = db.posts ∧
      (dpsiGo env post plant category i tys db).2.tags = db.tags := by
  intro tys
  induction tys with
  | nil => intro i db; exact ⟨rfl, rfl⟩
  | cons ty rest ih =>
    intro i db
    unfold dpsiGo
    cases hh : (get_unsplash_images env (plant ++ " " ++ ty) 1).head? with
    | none => simpa using ih (i + 1) db
    | some img =>
      dsimp only
      have h1 := download_and_store_image_state env img.url post
        (create_image_captions env plant category ty)
        (generate_alt_text plant category ty) (i + 1) ty db
      have h2 := ih (i + 1)
        (download_and_store_image env img.url post
          (create_image_captions env plant category ty)
          (generate_alt_text plant category ty) (i + 1) ty db).2
      cases hc : (download_and_store_image env img.url post
          (create_image_captions env plant category ty)
          (generate_alt_text plant category ty) (i + 1) ty db).1 <;>
        simp only [hc] <;>
        exact ⟨h2.1.trans h1.1, h2.2.trans h1.2⟩

/-- Mapping a slug-preserving function across the post table does not
change slug membership tests. -/
lemma any_map_slug (l : List PostRec) (f : PostRec → PostRec) (s : String)
    (hf : ∀ p, (f p).slug = p.slug) :
    ((l.map f).any (fun p => p.slug == s)) = (l.any (fun p => p.slug == s)) := by
  induction l with
  | nil => rfl
  | cons p t ih => simp [hf, ih]

lemma setTags_slug_pres (s2 : String) (ns : List String) :
    ∀ p : PostRec,
      ((fun q => if q.slug == s2 then { q with tagNames := ns } else q) p).slug =
        p.slug := by
  intro p
  dsimp only
  split <;> rfl

lemma update_slug_pres (q : PostRec) :
    ∀ p : PostRec, ((fun r => if r.slug == q.slug then q else r) p).slug = p.slug := by
  intro p
  dsimp only
  split
  · next h => exact (eq_of_beq h).symm
  · rfl

lemma map_id_of_fresh (l : List PostRec) (s : String)
    (g : PostRec → PostRec)
    (hl : ∀ p ∈ l, (p.slug == s) = false) :
    l.map (fun p => if p.slug == s then g p else p) = l := by
  induction l with
  | nil => rfl
  | cons p t ih =>
    have hp := hl p (List.mem_cons_self p t)
    simp only [List.map_cons, hp]
    simp only [Bool.false_eq_true, if_false]
    rw [ih (fun q hq => hl q (List.mem_cons_of_mem p hq))]

/-- Updating a post whose slug does not occur in the prior rows rewrites
only the trailing row it matches. -/
lemma dbUpdatePost_fresh (db : Db) (rest : List PostRec) (p : PostRec)
    (hl : ∀ q ∈ rest, (q.slug == p.slug) = false)
    (hdb : db.posts = rest ++ [p]) :
    dbUpdatePost db p = db := by
  unfold dbUpdatePost
  have : db.posts.map (fun q => if q.slug == p.slug then p else q) = db.posts := by
    rw [hdb, List.map_append, List.map_singleton]
    rw [map_id_of_fresh rest p.slug (fun _ => p) hl]
    simp
  rw [this]

lemma filter_nil_of_fresh (l : List PostRec) (s : String)
    (h : ∀ p ∈ l, (p.slug == s) = false) :
    l.filter (fun p => p.slug == s) = [] := by
  induction l with
  | nil => rfl
  | cons p t ih =>
    have hp := h p (List.mem_cons_self p t)
    simp [List.filter_cons, hp,
      ih (fun q hq => h q (List.mem_cons_of_mem p hq))]

/-- The success tail of `handle` under all-failing image uploads: the
stored row keeps the fields it had after the initial save (tag names
apart) and no image row is added. -/
lemma tail_c9 (env : Env) (post1 : PostRec) (plant category S : String)
    (ns : List String) (dbPre : Db)
    (hp1 : post1.slug = S) (hSne : S ≠ "")
    (h2 : post1.thumbnail_url ≠ "") (h4 : post1.featured_image_url ≠ "")
    (hStore : ∀ f c, env.storageSave f c = Except.error ())
    (hUp : ∀ u p, env.cloudinaryUpload u p = Except.error ())
    (hMem : ∀ p ∈ dbPre.posts, (p.slug == S) = false) :
    ((download_and_store_post_images env
        (download_and_store_main_images env post1 plant category
          { dbPre with posts := dbPre.posts ++ [post1] }).1
        plant category
        (dbSetPostTags
          (download_and_store_main_images env post1 plant category
            { dbPre with posts := dbPre.posts ++ [post1] }).2 S ns)).2.posts.filter
      (fun p => p.slug == S)) = [{ post1 with tagNames := ns }] ∧
    (download_and_store_post_images env
        (download_and_store_main_images env post1 plant category
          { dbPre with posts := dbPre.posts ++ [post1] }).1
        plant category
        (dbSetPostTags
          (download_and_store_main_images env post1 plant category
            { dbPre with posts := dbPre.posts ++ [post1] }).2 S ns)).2.postImages =
      dbPre.postImages := by
  have hdmi : download_and_store_main_images env post1 plant category
      { dbPre with posts := dbPre.posts ++ [post1] } =
      (post1, { dbPre with posts := dbPre.posts ++ [post1] }) := by
    rcases dmi_storage_fail env post1 plant category
        { dbPre with posts := dbPre.posts ++ [post1] } hStore
        (by rw [hp1]; exact hSne) h2 h4 with h | h
    · exact h
    · rw [h, dbUpdatePost_fresh _ dbPre.posts post1
        (fun q hq => by rw [hp1]; exact hMem q hq) rfl]
  rw [hdmi]
  unfold download_and_store_post_images
  rw [dpsiGo_upload_fail env hUp post1 plant category image_types 0 _]
  dsimp only
  constructor
  · unfold dbSetPostTags
    dsimp only
    rw [List.map_append,
      map_id_of_fresh dbPre.posts S (fun q => { q with tagNames := ns }) hMem]
    rw [List.filter_append, filter_nil_of_fresh dbPre.posts S hMem]
    simp [hp1]
  · rfl

lemma placeholderThumb_ne_empty (c : String) : placeholderThumb c ≠ "" := by
  intro h
  have hlen : (placeholderThumb c).length = 0 := by rw [h]; rfl
  unfold placeholderThumb at hlen
  rw [String.length_append, String.length_append] at hlen
  have h27 : ("https://res.cloudinary.com/" : String).length = 27 := rfl
  rw [h27] at hlen
  omega

lemma placeholderFeatured_ne_empty (c : String) : placeholderFeatured c ≠ "" := by
  intro h
  have hlen : (placeholderFeatured c).length = 0 := by rw [h]; rfl
  unfold placeholderFeatured at hlen
  rw [String.length_append, String.length_append] at hlen
  have h27 : ("https://res.cloudinary.com/" : String).length = 27 := rfl
  rw [h27] at hlen
  omega

lemma mainThumbStep_slug (env : Env) (post : PostRec) (plant category : String) :
    (mainThumbStep env post plant category).1.slug = post.slug := by
  unfold mainThumbStep
  split
  · rfl
  · split
    · rfl
    · dsimp only
      split <;> rfl

lemma mainFeatStep_slug (env : Env) (post : PostRec) (plant : String) :
    (mainFeatStep env post plant).1.slug = post.slug := by
  unfold mainFeatStep
  split
  · rfl
  · split
    · rfl
    · dsimp only
      split <;> rfl

lemma postModelSave_ok_slug (c : String) (p r : PostRec) (hs : p.slug ≠ "")
    (h : postModelSave c p = .ok r) : r.slug = p.slug := by
  unfold postModelSave at h
  rw [if_neg hs] at h
  dsimp only at h
  split at h
  · split at h <;> (injection h with h; rw [← h])
  · split at h
    · exact absurd h (by simp)
    · injection h with h
      rw [← h]

/-- The live main-images step, for an arbitrary environment, returns a
post with an unchanged slug, and either leaves the store untouched or
rewrites only the row under that slug. -/
lemma dmi_shape (env : Env) (post : PostRec) (plant category : String)
    (db : Db) (hs : post.slug ≠ "") :
    ∃ q : PostRec, q.slug = post.slug ∧
      (download_and_store_main_images env post plant category db = (q, db) ∨
       download_and_store_main_images env post plant category db =
         (q, dbUpdatePost db q)) := by
  unfold download_and_store_main_images
  dsimp only
  have hslug1 := mainThumbStep_slug env post plant category
  cases ht2 : (mainThumbStep env post plant category).2 with
  | true => exact ⟨_, hslug1, Or.inl (by simp)⟩
  | false =>
    have hslug2 :=
      mainFeatStep_slug env (mainThumbStep env post plant category).1 plant
    cases hf2 : (mainFeatStep env (mainThumbStep env post plant category).1 plant).2 with
    | true => exact ⟨_, hslug2.trans hslug1, Or.inl (by simp)⟩
    | false =>
      cases hms : postModelSave env.cloudNameCfg
          (mainFeatStep env (mainThumbStep env post plant category).1 plant).1 with
      | error e =>
        exact ⟨_, hslug2.trans hslug1, Or.inl (by simp)⟩
      | ok p3 =>
        have hp3 : p3.slug = post.slug := by
          have := postModelSave_ok_slug env.cloudNameCfg _ p3
            (by rw [hslug2.trans hslug1]; exact hs) hms
          rw [this, hslug2.trans hslug1]
        cases hu : env.postUpdateOk with
        | true => exact ⟨p3, hp3, Or.inr (by simp)⟩
        | false => exact ⟨p3, hp3, Or.inl (by simp)⟩

lemma assembledPost_slug (data : GenData) (t c s cat S v : String) :
    (assembledPost data t c s cat S v).slug = S := rfl

lemma assembledPost_fields (data : GenData) (t c s cat S v : String) :
    (assembledPost data t c s cat S v).thumbnail = none ∧
    (assembledPost data t c s cat S v).thumbnail_url = "" ∧
    (assembledPost data t c s cat S v).featured_image = none ∧
    (assembledPost data t c s cat S v).featured_image_url = "" ∧
    (assembledPost data t c s cat S v).is_published = true ∧
    (assembledPost data t c s cat S v).is_featured = false :=
  ⟨rfl, rfl, rfl, rfl, rfl, rfl⟩

/-- The main-images step preserves slug membership in the post table. -/
lemma dmi_any (env : Env) (post : PostRec) (plant category : String)
    (db : Db) (hs : post.slug ≠ "")
    (hAny : db.posts.any (fun p => p.slug == post.slug) = true) :
    ((download_and_store_main_images env post plant category db).2.posts.any
      (fun p => p.slug == post.slug)) = true := by
  obtain ⟨q, hq, hcase | hcase⟩ := dmi_shape env post plant category db hs
  · rw [hcase]
    exact hAny
  · rw [hcase]
    show ((dbUpdatePost db q).posts.any (fun p => p.slug == post.slug)) = true
    unfold dbUpdatePost
    dsimp only
    rw [any_map_slug db.posts _ post.slug (update_slug_pres q)]
    exact hAny

lemma setTags_any (db : Db) (s : String) (ns : List String) :
    ((dbSetPostTags db s ns).posts.any (fun p => p.slug == s)) =
    (db.posts.any (fun p => p.slug == s)) := by
  unfold dbSetPostTags
  dsimp only
  exact any_map_slug db.posts _ s (setTags_slug_pres s ns)

/-- The success tail of `handle` (main images, tag set, content images)
keeps the post stored under its slug, whatever the image outcomes. -/
lemma tail_any (env : Env) (post1 : PostRec) (plant category S : String)
    (ns : List String) (db2 : Db)
    (hp1 : post1.slug = S) (hSne : S ≠ "")
    (hAny : db2.posts.any (fun p => p.slug == S) = true) :
    ((download_and_store_post_images env
        (download_and_store_main_images env post1 plant category db2).1
        plant category
        (dbSetPostTags
          (download_and_store_main_images env post1 plant category db2).2
          S ns)).2.posts.any
      (fun p => p.slug == S)) = true := by
  unfold download_and_store_post_images
  rw [(dpsiGo_state _ _ _ _ image_types 0 _).1]
  rw [setTags_any]
  have h := dmi_any env post1 plant category db2
    (by rw [hp1]; exact hSne) (by rw [hp1]; exact hAny)
  rw [hp1] at h
  exact h

lemma any_filter_not (l : List PostRec) (s : String) :
    ((l.filter (fun p => !(p.slug == s))).any (fun p => p.slug == s)) = false := by
  induction l with
  | nil => rfl
  | cons p t ih =>
    cases hp : (p.slug == s) <;> simp [List.filter_cons, hp, ih]

lemma dbDeletePost_any (db : Db) (s : String) :
    ((dbDeletePost db s).posts.any (fun p => p.slug == s)) = false :=
  any_filter_not db.posts s

/-! ## Concrete environments used by witnesses and counterexamples -/

/-- A complete generation record, as a successful `json.loads` would
produce for the day-5 topic. -/
def genOk : GenData :=
  { title := some "Complete Potting Mix Guide"
    content := some "<h2>Intro</h2><p>Mixes.</p>"
    summary := some "A potting mix guide"
    tags := some ["potting", "soil"]
    video_search_query := some "potting mix" }

/-- A fully successful environment: day 5 (the care/Potting-Mix-Guide
scenario), one photo per query (answered only for `per_page = 1`, the
value the code sends), successful downloads and uploads. -/
def envOk : Env :=
  { day := 5
    accessKey := some "k"
    unsplash := fun _ n =>
      if n = 1 then
        .ok [{ regular := "https://img.example/1.jpg",
               description := some "green plant", id := "p1" }]
      else .error ()
    geminiText := fun _ _ => .ok "raw"
    jsonLoads := fun _ => some genOk
    cloudinaryUpload := fun _ _ => .ok "https://res.cloudinary.com/demo/blog/x.jpg"
    httpGetImage := fun _ => .ok { content := "BYTES", contentType := "image/jpeg" }
    guessExt := fun _ => ".jpg"
    storageSave := fun _ _ => .ok "stored-ref" }

/-! ## Claim theorems -/

/-- C5: topic selection is a pure deterministic function of the calendar
date.  The category table has exactly the five fixed keys in order, each
with a 15-entry topic list; with no override the category is
`categories[(day - 1) % 5]` and the topic
`topics[category][(day - 1) % 15]`; on day 5 of any month the selection
is category `care`, topic `Potting Mix Guide`, slug `potting-mix-guide`. -/
theorem C5_topic_selection_deterministic :
    (get_daily_topics.all (fun p => p.2.length == 15)) = true ∧
    categoriesList = ["plants", "flowers", "fruits", "gardening", "care"] ∧
    (∀ d : Nat, resolveCategory d none =
        ["plants", "flowers", "fruits", "gardening", "care"].getD ((d - 1) % 5) "") ∧
    (∀ d : Nat, resolveTopic d "plants" = (topicsFor "plants").getD ((d - 1) % 15) "") ∧
    (∀ d : Nat, resolveTopic d "flowers" = (topicsFor "flowers").getD ((d - 1) % 15) "") ∧
    (∀ d : Nat, resolveTopic d "fruits" = (topicsFor "fruits").getD ((d - 1) % 15) "") ∧
    (∀ d : Nat, resolveTopic d "gardening" = (topicsFor "gardening").getD ((d - 1) % 15) "") ∧
    (∀ d : Nat, resolveTopic d "care" = (topicsFor "care").getD ((d - 1) % 15) "") ∧
    resolveCategory 5 none = "care" ∧
    resolveTopic 5 "care" = "Potting Mix Guide" ∧
    slugify "Potting Mix Guide" = "potting-mix-guide" :=
  ⟨by decide, rfl, fun _ => rfl, fun _ => rfl, fun _ => rfl, fun _ => rfl,
   fun _ => rfl, fun _ => rfl, rfl, rfl, rfl⟩

/-- C10: `Post.save` is not total over valid post states: for a post
with a thumbnail or a non-empty thumbnail URL but neither a featured
image nor a featured URL, the save raises a `NameError`, because
`cloudinary_cloud_name` is only bound inside the thumbnail-placeholder
branch. -/
theorem C10_post_save_name_error (cloudCfg : String) (p : PostRec)
    (h1 : p.thumbnail ≠ none ∨ p.thumbnail_url ≠ "")
    (h2 : p.featured_image = none) (h3 : p.featured_image_url = "") :
    postModelSave cloudCfg p = .error .nameError := by
  unfold postModelSave
  have hcond : (p.thumbnail.isNone && decide (p.thumbnail_url = "")) = false := by
    rcases h1 with h1 | h1
    · cases hp : p.thumbnail
      · exact absurd hp h1
      · simp [hp]
    · simp [h1]
  by_cases hs : p.slug = "" <;> simp [hs, hcond, h2, h3]

/-- Witness for C10 at a concrete post (thumbnail URL set, featured
fields empty). -/
theorem C10_witness :
    postModelSave "demo"
      { title := "Palm Tree Care", slug := "palm-tree-care", content := "c",
        summary := "s", category := "plants",
        thumbnail_url := "https://img.example/t.jpg" } = .error .nameError :=
  C10_post_save_name_error "demo" _ (Or.inr (by decide)) rfl rfl

/-- C7: whenever a scheduled run starts, the end phase always resets
`is_running` to `false` and sets `last_run` to the end-of-run time —
whether the assembler returned normally or raised — both for an
arbitrary assembler outcome and for the real `Command().handle()`. -/
theorem C7_end_run_always_resets (env : Env) (s : SchedState)
    (now nowEnd : DateTime) (asm : Db → AsmOutcome) (db : Db)
    (hGate : shouldRun s now = true) :
    (middlewareRun s now nowEnd asm db).1.is_running = false ∧
    (middlewareRun s now nowEnd asm db).1.last_run = nowEnd ∧
    (dailyPostSchedulerCall env s now nowEnd db).1.is_running = false ∧
    (dailyPostSchedulerCall env s now nowEnd db).1.last_run = nowEnd := by
  unfold dailyPostSchedulerCall middlewareRun
  simp only [hGate, if_true]
  cases asm db <;>
    cases handle env ⟨none, false⟩ db <;>
    simp

/-- Witness for C7: a concrete open gate with a raising assembler. -/
theorem C7_witness :
    (middlewareRun { last_run := { day := 3 } } { day := 4 }
        { day := 4, tod := 7 } (fun d => .raised d) {}).1.is_running = false ∧
    (middlewareRun { last_run := { day := 3 } } { day := 4 }
        { day := 4, tod := 7 } (fun d => .raised d) {}).1.last_run =
      { day := 4, tod := 7 } :=
  ⟨(C7_end_run_always_resets envOk { last_run := { day := 3 } } { day := 4 }
      { day := 4, tod := 7 } (fun d => .raised d) {} (by decide)).1,
   (C7_end_run_always_resets envOk { last_run := { day := 3 } } { day := 4 }
      { day := 4, tod := 7 } (fun d => .raised d) {} (by decide)).2.1⟩

/-- C8: the gate `shouldRun` holds exactly when the singleton's
`last_run` date is strictly before the current date and `is_running` is
false; after a run that ends the same calendar day the gate is closed
for the rest of that day and open again once the date advances. -/
theorem C8_should_run_gate (s : SchedState) (now nowEnd : DateTime)
    (asm : Db → AsmOutcome) (db : Db)
    (hGate : shouldRun s now = true) (hSameDay : nowEnd.day = now.day) :
    (∀ t : SchedState, ∀ n : DateTime,
        (shouldRun t n = true ↔ (t.last_run.day < n.day ∧ t.is_running = false))) ∧
    (∀ t : DateTime, t.day = now.day →
        shouldRun (middlewareRun s now nowEnd asm db).1 t = false) ∧
    (∀ t : DateTime, now.day < t.day →
        shouldRun (middlewareRun s now nowEnd asm db).1 t = true) := by
  refine ⟨fun t n => ?_, fun t ht => ?_, fun t ht => ?_⟩
  · simp [shouldRun]
  · unfold middlewareRun
    simp only [hGate, if_true]
    cases asm db <;> simp [shouldRun, hSameDay, ht]
  · unfold middlewareRun
    simp only [hGate, if_true]
    cases asm db <;> simp [shouldRun, hSameDay, ht]

/-- Witness for C8 at a concrete state and times. -/
theorem C8_witness :
    (shouldRun { last_run := { day := 3 } } { day := 4 } = true ↔
      (3 < 4 ∧ false = false)) ∧
    shouldRun (middlewareRun { last_run := { day := 3 } } { day := 4 }
        { day := 4, tod := 9 } (fun d => .raised d) {}).1 { day := 4, tod := 11 } =
      false ∧
    shouldRun (middlewareRun { last_run := { day := 3 } } { day := 4 }
        { day := 4, tod := 9 } (fun d => .raised d) {}).1 { day := 5 } = true :=
  ⟨(C8_should_run_gate { last_run := { day := 3 } } { day := 4 }
      { day := 4, tod := 9 } (fun d => .raised d) {} (by decide) rfl).1
      { last_run := { day := 3 } } { day := 4 },
   (C8_should_run_gate { last_run := { day := 3 } } { day := 4 }
      { day := 4, tod := 9 } (fun d => .raised d) {} (by decide) rfl).2.1
      { day := 4, tod := 11 } rfl,
   (C8_should_run_gate { last_run := { day := 3 } } { day := 4 }
      { day := 4, tod := 9 } (fun d => .raised d) {} (by decide) rfl).2.2
      { day := 5 } (by decide)⟩

/-- C4: with `force` unset and a post already present under the selected
topic's slug, `handle` is a no-op: unchanged store, an `alreadyExists`
outcome, and the content generator is never invoked. -/
theorem C4_assemble_idempotent (env : Env) (kw : Kwargs) (db : Db)
    (hForce : kw.force = false)
    (hExists : db.posts.any (fun p =>
        p.slug == slugify (resolveTopic env.day (resolveCategory env.day kw.category))) = true) :
    handle env kw db = ⟨db, .alreadyExists, false⟩ := by
  unfold handle
  simp [hExists, hForce]

/-- Witness for C4: on day 5 with `potting-mix-guide` already stored,
the run is a no-op. -/
theorem C4_witness :
    handle { day := 5 } { force := false }
      { posts := [{ title := "Old", slug := "potting-mix-guide",
                    content := "c", summary := "s", category := "care" }] } =
      ⟨{ posts := [{ title := "Old", slug := "potting-mix-guide",
                     content := "c", summary := "s", category := "care" }] },
        .alreadyExists, false⟩ :=
  C4_assemble_idempotent _ _ _ rfl (by decide)

/-- C3 (counterexample): with a failing upload, the store operation
returns `None` — not the fixed placeholder URL the claim promises. -/
theorem C3_counterexample :
    upload_to_cloudinary { day := 1 } "https://source.example/a.jpg"
        "complete-potting-mix-guide-thumbnail-0" = none ∧
    (none : Option String) ≠ some (placeholderThumb "demo") := by
  exact ⟨rfl, by decide⟩

/-- C3 (amended): on any upload error the store operation logs a warning
and returns `None` — it never raises to its caller — and the caller
`download_and_store_image` then returns `None` leaving the store
untouched (placeholder URLs come from the `Post.save` defaults instead);
on success it returns the hosted secure URL. -/
theorem C3_image_store_amended (env : Env) (url pid : String)
    (post : PostRec) (caption alt : String) (order : Nat) (ty : String)
    (db : Db) :
    (env.cloudinaryUpload url pid = .error () →
        upload_to_cloudinary env url pid = none) ∧
    (∀ s, env.cloudinaryUpload url pid = .ok s →
        upload_to_cloudinary env url pid = some s) ∧
    (env.cloudinaryUpload url
          (slugify post.title ++ "-" ++ ty ++ "-" ++ toString order) =
        .error () →
      download_and_store_image env url post caption alt order ty db =
        (none, db)) := by
  refine ⟨fun h => ?_, fun s h => ?_, fun h => ?_⟩
  · unfold upload_to_cloudinary
    rw [h]
  · unfold upload_to_cloudinary
    rw [h]
  · unfold download_and_store_image upload_to_cloudinary
    dsimp only
    rw [h]

/-- Witness for C3 (amended): failing and succeeding uploads at concrete
inputs. -/
theorem C3_witness :
    upload_to_cloudinary { day := 1 } "https://source.example/a.jpg" "pid-1" =
      none ∧
    upload_to_cloudinary
        { day := 1,
          cloudinaryUpload := fun _ _ =>
            .ok "https://res.cloudinary.com/demo/blog/u.jpg" }
        "https://source.example/a.jpg" "pid-1" =
      some "https://res.cloudinary.com/demo/blog/u.jpg" ∧
    download_and_store_image { day := 1 } "https://source.example/a.jpg"
        { title := "T", slug := "t", content := "c", summary := "s",
          category := "plants" }
        "cap" "alt" 1 "overview" {} = (none, {}) :=
  ⟨(C3_image_store_amended { day := 1 } "https://source.example/a.jpg" "pid-1"
      { title := "T", slug := "t", content := "c", summary := "s",
        category := "plants" } "cap" "alt" 1 "overview" {}).1 rfl,
   (C3_image_store_amended
      { day := 1,
        cloudinaryUpload := fun _ _ =>
          .ok "https://res.cloudinary.com/demo/blog/u.jpg" }
      "https://source.example/a.jpg" "pid-1"
      { title := "T", slug := "t", content := "c", summary := "s",
        category := "plants" } "cap" "alt" 1 "overview" {}).2.1 _ rfl,
   (C3_image_store_amended { day := 1 } "https://source.example/a.jpg" "pid-1"
      { title := "T", slug := "t", content := "c", summary := "s",
        category := "plants" } "cap" "alt" 1 "overview" {}).2.2 rfl⟩

/-- From the spec (§4.3 and claim C6): the fixed keyword set the claim
says filters candidates. -/
def specKeywordSet : List String :=
  ["plant", "foliage", "leaf", "flower", "fruit", "tree", "botanical",
   "garden", "nature", "green", "organic", "grow"]

/-- From the spec (§4.3 and claim C6): a candidate matches when its
description or tags intersect the keyword set. -/
def specKeywordMatch (descr : String) (tags : List String) : Bool :=
  specKeywordSet.any (fun k =>
    containsStr (lowerStr descr) k ||
      tags.any (fun t => containsStr (lowerStr t) k))

/-- A photo with no plant-related description or tags. -/
def cityPhoto : Photo :=
  { regular := "https://img.example/city.jpg",
    description := some "city skyline at night", id := "c1",
    photoTags := ["city", "night"] }

/-- An upstream answering only requests with `per_page = 1` (the exact
`count` the code sends); an over-fetching request would error out. -/
def envCity : Env :=
  { day := 1, accessKey := some "k",
    unsplash := fun _ n => if n = 1 then .ok [cityPhoto] else .error () }

/-- C6 (counterexample): the sourcer keeps a candidate whose description
and tags meet none of the claimed keywords (so no keyword filtering
happens), and obtains it through a request with `per_page = count` (no
over-fetch — the environment errors on any other page size). -/
theorem C6_counterexample :
    get_unsplash_images envCity "monstera" 1 =
      [{ url := "https://img.example/city.jpg",
         description := "city skyline at night", id := "c1" }] ∧
    specKeywordMatch "city skyline at night" ["city", "night"] = false :=
  ⟨rfl, by decide⟩

/-- C6 (amended): the sourcer requests exactly `count` results (no
over-fetch) with the query augmented by the fixed alternation string,
maps the first `count` results with no keyword filtering, and returns
`[]` without raising when the credential is absent or empty or the
upstream call fails; the result never exceeds `count` items. -/
theorem C6_image_sourcer_amended (env : Env) (q : String) (c : Nat) :
    (env.accessKey = none → get_unsplash_images env q c = []) ∧
    (env.accessKey = some "" → get_unsplash_images env q c = []) ∧
    (∀ key, env.accessKey = some key → key ≠ "" →
      (env.unsplash (q ++ " plant|foliage|leaf|flower|fruit|botanical") c =
          .error () → get_unsplash_images env q c = []) ∧
      (∀ rs, env.unsplash (q ++ " plant|foliage|leaf|flower|fruit|botanical") c =
          .ok rs →
        get_unsplash_images env q c = (rs.take c).map (fun photo =>
          { url := photo.regular
            description := pyOrS (photo.description.getD "")
              (pyOrS (photo.alt_description.getD "") q)
            id := photo.id }))) ∧
    (get_unsplash_images env q c).length ≤ c := by
  refine ⟨fun h => ?_, fun h => ?_,
    fun key hk hne => ⟨fun h => ?_, fun rs h => ?_⟩, ?_⟩
  · unfold get_unsplash_images
    rw [h]
  · unfold get_unsplash_images
    rw [h]
    simp
  · unfold get_unsplash_images
    rw [hk, h]
    simp [hne]
  · unfold get_unsplash_images
    rw [hk, h]
    simp [hne]
  · unfold get_unsplash_images
    cases hk : env.accessKey with
    | none => simp
    | some key =>
      by_cases hke : key = ""
      · simp [hke]
      · simp only [hke, if_false]
        cases hu : env.unsplash
            (q ++ " plant|foliage|leaf|flower|fruit|botanical") c with
        | error e => simp
        | ok rs =>
          simp only [List.length_map]
          exact List.length_take_le c rs

/-- Witness for C6 (amended): an absent credential yields `[]`, and a
concrete successful response is passed through unfiltered. -/
theorem C6_witness :
    get_unsplash_images { day := 1, accessKey := none } "rose" 3 = [] ∧
    get_unsplash_images envCity "monstera" 1 =
      [{ url := "https://img.example/city.jpg",
         description := "city skyline at night", id := "c1" }] :=
  ⟨(C6_image_sourcer_amended { day := 1, accessKey := none } "rose" 3).1 rfl,
   ((C6_image_sourcer_amended envCity "monstera" 1).2.2.1 "k" rfl
      (by decide)).2 [cityPhoto] rfl⟩

/-- An environment whose generated record lacks the required `title`
but carries a tag list. -/
def envMissingTitle : Env :=
  { envOk with
    jsonLoads := fun _ => some { genOk with title := none, tags := some ["fern"] } }

/-- C2 (counterexample): when the generated record lacks the required
`title`, the run fails and creates no `Post` row — but a `Tag` row
created earlier in the run stays persisted, contradicting the claim
that such a run creates "no partial data". -/
theorem C2_counterexample :
    (handle envMissingTitle {} {}).db.posts = [] ∧
    (handle envMissingTitle {} {}).db.tags = [{ name := "fern", slug := "fern" }] ∧
    (handle envMissingTitle {} {}).outcome = .failed :=
  ⟨rfl, rfl, rfl⟩

/-- C2 (amended): a generation failure aborts the run with a single
reported failure and no `Post` row.  When the generative call errors or
the response is not parseable JSON, nothing at all is persisted; when a
required field (`title`, `content`, `summary`) is missing from the
parsed record, no `Post` or `PostImage` row is created, but the `Tag`
rows resolved before the post construction remain persisted. -/
theorem C2_generation_failure_amended (env : Env) (kw : Kwargs) (db : Db)
    (hGuard : (db.posts.any (fun p =>
        p.slug == slugify (resolveTopic env.day (resolveCategory env.day kw.category))) &&
        !kw.force) = false) :
    (generate_post_content env
        (resolveTopic env.day (resolveCategory env.day kw.category))
        (resolveCategory env.day kw.category) = none →
      handle env kw db = ⟨db, .genFailed, true⟩) ∧
    (∀ data : GenData,
      generate_post_content env
          (resolveTopic env.day (resolveCategory env.day kw.category))
          (resolveCategory env.day kw.category) = some data →
      (data.title = none ∨ data.content = none ∨ data.summary = none) →
      handle env kw db =
        ⟨(create_or_get_tags db (data.tags.getD [])).1, .failed, true⟩ ∧
      (handle env kw db).db.posts = db.posts ∧
      (handle env kw db).db.postImages = db.postImages) := by
  constructor
  · intro hGen
    unfold handle
    dsimp only
    rw [hGuard]
    simp only [Bool.false_eq_true, if_false]
    rw [hGen]
  · intro data hGem hMiss
    have hrun : handle env kw db =
        ⟨(create_or_get_tags db (data.tags.getD [])).1, .failed, true⟩ := by
      unfold handle
      dsimp only
      rw [hGuard]
      simp only [Bool.false_eq_true, if_false]
      rw [hGem]
      dsimp only
      rcases hT : data.title with _ | t <;>
        rcases hC : data.content with _ | c <;>
        rcases hS : data.summary with _ | s <;>
        simp only
      rcases hMiss with h | h | h <;> simp_all
    refine ⟨hrun, ?_, ?_⟩
    · rw [hrun]
      exact (create_or_get_tags_state _ db).1
    · rw [hrun]
      exact (create_or_get_tags_state _ db).2

/-- C1 (counterexample): in a fully successful environment the run
leaves one post; in the identical environment whose only difference is a
failing `post.tags.set`, the already-written post is deleted and the run
fails — so a tag-association failure does not leave the created post
persisted. -/
theorem C1_counterexample :
    (handle envOk {} {}).db.posts.length = 1 ∧
    (handle { envOk with tagsSetOk := false } {} {}).db.posts = [] ∧
    (handle { envOk with tagsSetOk := false } {} {}).outcome = .failed :=
  ⟨rfl, rfl, rfl⟩

/-- C1 (amended): once the initial post write has succeeded, image
sourcing and image storing failures never remove the post: for an
arbitrary environment — hence arbitrary image-step outcomes — the run
succeeds with the post still stored under its slug.  A failing tag
association, however, deletes the already-created post and the run
fails, so deletion is not restricted to initial-write failures. -/
theorem C1_image_failures_amended (env : Env) (kw : Kwargs) (db : Db)
    (data : GenData) (title content summary : String) (S : String)
    (hSdef : S = slugify (resolveTopic env.day (resolveCategory env.day kw.category)))
    (hGem : generate_post_content env
        (resolveTopic env.day (resolveCategory env.day kw.category))
        (resolveCategory env.day kw.category) = some data)
    (hT : data.title = some title) (hC : data.content = some content)
    (hS : data.summary = some summary)
    (hIns : env.postInsertOk = true)
    (hFresh : db.posts.any (fun p => p.slug == S) = false)
    (hSlugNe : S ≠ "") :
    (env.tagsSetOk = true →
      (handle env kw db).outcome = .success ∧
      (handle env kw db).db.posts.any (fun p => p.slug == S) = true) ∧
    (env.tagsSetOk = false →
      (handle env kw db).outcome = .failed ∧
      (handle env kw db).db.posts.any (fun p => p.slug == S) = false) := by
  subst hSdef
  have hGuardF : ((db.posts.any fun p =>
      p.slug == slugify (resolveTopic env.day (resolveCategory env.day kw.category))) &&
      !kw.force) = false := by
    rw [hFresh]
    rfl
  have hAny2 : ∀ post1 : PostRec,
      post1.slug = slugify (resolveTopic env.day (resolveCategory env.day kw.category)) →
      ((db.posts ++ [post1]).any (fun p => p.slug == post1.slug)) = true := by
    intro post1 hp1
    rw [List.any_append]
    simp [hp1]
  constructor
  · intro htags
    unfold handle
    dsimp only
    rw [hGuardF]
    simp only [Bool.false_eq_true, if_false]
    rw [hGem]
    dsimp only
    rw [hT, hC, hS]
    dsimp only
    rw [postModelSave_fresh env.cloudNameCfg
      (assembledPost data title content summary
        (resolveCategory env.day kw.category)
        (slugify (resolveTopic env.day (resolveCategory env.day kw.category)))
        (get_youtube_video (data.video_search_query.getD
          (resolveTopic env.day (resolveCategory env.day kw.category)))))
      hSlugNe rfl rfl rfl rfl]
    dsimp only
    rw [hIns, (create_or_get_tags_state (data.tags.getD []) db).1]
    simp only [assembledPost_slug, hFresh, Bool.not_true, Bool.false_or,
      Bool.false_eq_true, if_false]
    rw [htags]
    simp only [if_true]
    constructor
    · first
      | rfl
      | trivial
    · exact tail_any _ _ _ _ _ _ _ rfl hSlugNe (hAny2 _ rfl)
  · intro htags
    unfold handle
    dsimp only
    rw [hGuardF]
    simp only [Bool.false_eq_true, if_false]
    rw [hGem]
    dsimp only
    rw [hT, hC, hS]
    dsimp only
    rw [postModelSave_fresh env.cloudNameCfg
      (assembledPost data title content summary
        (resolveCategory env.day kw.category)
        (slugify (resolveTopic env.day (resolveCategory env.day kw.category)))
        (get_youtube_video (data.video_search_query.getD
          (resolveTopic env.day (resolveCategory env.day kw.category)))))
      hSlugNe rfl rfl rfl rfl]
    dsimp only
    rw [hIns, (create_or_get_tags_state (data.tags.getD []) db).1]
    simp only [assembledPost_slug, hFresh, Bool.not_true, Bool.false_or,
      Bool.false_eq_true, if_false]
    rw [htags]
    simp only [Bool.false_eq_true, if_false]
    constructor
    · first
      | rfl
      | trivial
    · exact dbDeletePost_any _ _

/-- Witness for C1 (amended): the fully successful day-5 environment
keeps the post under `potting-mix-guide`. -/
theorem C1_witness :
    (handle envOk {} {}).outcome = .success ∧
    (handle envOk {} {}).db.posts.any
      (fun p => p.slug == "potting-mix-guide") = true :=
  (C1_image_failures_amended envOk {} {} genOk "Complete Potting Mix Guide"
    "<h2>Intro</h2><p>Mixes.</p>" "A potting mix guide" "potting-mix-guide"
    rfl rfl rfl rfl rfl rfl rfl (by decide)).1 rfl

/-- C9: when every image upload fails (media-host upload and file-field
storage both erroring on every slot), the run still succeeds and the
persisted post keeps the fixed non-empty placeholder `thumbnail_url` and
`featured_image_url` set by the `Post.save` defaults, has no image
fields, gains no `PostImage` rows, and has `is_published = true` by
default. -/
theorem C9_placeholder_fallback (env : Env) (kw : Kwargs) (db : Db)
    (data : GenData) (title content summary : String) (S : String)
    (hSdef : S = slugify (resolveTopic env.day (resolveCategory env.day kw.category)))
    (hGem : generate_post_content env
        (resolveTopic env.day (resolveCategory env.day kw.category))
        (resolveCategory env.day kw.category) = some data)
    (hT : data.title = some title) (hC : data.content = some content)
    (hSm : data.summary = some summary)
    (hIns : env.postInsertOk = true)
    (hTags : env.tagsSetOk = true)
    (hStore : ∀ f c, env.storageSave f c = Except.error ())
    (hUp : ∀ u p, env.cloudinaryUpload u p = Except.error ())
    (hFresh : db.posts.any (fun p => p.slug == S) = false)
    (hSlugNe : S ≠ "") :
    (handle env kw db).outcome = .success ∧
    (handle env kw db).db.postImages = db.postImages ∧
    placeholderThumb env.cloudNameCfg ≠ "" ∧
    placeholderFeatured env.cloudNameCfg ≠ "" ∧
    ∃ q : PostRec,
      (handle env kw db).db.posts.filter (fun p => p.slug == S) = [q] ∧
      q.thumbnail = none ∧ q.featured_image = none ∧
      q.thumbnail_url = placeholderThumb env.cloudNameCfg ∧
      q.featured_image_url = placeholderFeatured env.cloudNameCfg ∧
      q.is_published = true := by
  subst hSdef
  have hMem : ∀ p ∈ db.posts,
      (p.slug == slugify (resolveTopic env.day (resolveCategory env.day kw.category))) =
        false := by
    intro p hp
    cases hb : (p.slug == slugify (resolveTopic env.day (resolveCategory env.day kw.category)))
    · rfl
    · exfalso
      have : db.posts.any (fun q =>
          q.slug == slugify (resolveTopic env.day (resolveCategory env.day kw.category))) =
          true := by
        rw [List.any_eq_true]
        exact ⟨p, hp, hb⟩
      rw [this] at hFresh
      exact Bool.true_eq_false ▸ hFresh
  have hGuardF : ((db.posts.any fun p =>
      p.slug == slugify (resolveTopic env.day (resolveCategory env.day kw.category))) &&
      !kw.force) = false := by
    rw [hFresh]
    rfl
  have hMemPre : ∀ p ∈ (create_or_get_tags db (data.tags.getD [])).1.posts,
      (p.slug == slugify (resolveTopic env.day (resolveCategory env.day kw.category))) =
        false := by
    rw [(create_or_get_tags_state (data.tags.getD []) db).1]
    exact hMem
  have hInsAny : ((create_or_get_tags db (data.tags.getD [])).1.posts.any fun p =>
      p.slug == slugify (resolveTopic env.day (resolveCategory env.day kw.category))) =
      false := by
    rw [(create_or_get_tags_state (data.tags.getD []) db).1]
    exact hFresh
  have htail := tail_c9 env
    { assembledPost data title content summary
        (resolveCategory env.day kw.category)
        (slugify (resolveTopic env.day (resolveCategory env.day kw.category)))
        (get_youtube_video (data.video_search_query.getD
          (resolveTopic env.day (resolveCategory env.day kw.category)))) with
      thumbnail_url := placeholderThumb env.cloudNameCfg,
      featured_image_url := placeholderFeatured env.cloudNameCfg }
    ((pyWords (resolveTopic env.day (resolveCategory env.day kw.category))).headD "")
    (resolveCategory env.day kw.category)
    (slugify (resolveTopic env.day (resolveCategory env.day kw.category)))
    ((create_or_get_tags db (data.tags.getD [])).2.map TagRec.name)
    (create_or_get_tags db (data.tags.getD [])).1
    rfl hSlugNe (placeholderThumb_ne_empty _) (placeholderFeatured_ne_empty _)
    hStore hUp hMemPre
  dsimp only at htail
  simp only [assembledPost_slug] at htail
  unfold handle
  dsimp only
  rw [hGuardF]
  simp only [Bool.false_eq_true, if_false]
  rw [hGem]
  dsimp only
  rw [hT, hC, hSm]
  dsimp only
  rw [postModelSave_fresh env.cloudNameCfg
    (assembledPost data title content summary
      (resolveCategory env.day kw.category)
      (slugify (resolveTopic env.day (resolveCategory env.day kw.category)))
      (get_youtube_video (data.video_search_query.getD
        (resolveTopic env.day (resolveCategory env.day kw.category)))))
    hSlugNe rfl rfl rfl rfl]
  dsimp only
  rw [hIns]
  simp only [assembledPost_slug]
  rw [hInsAny]
  simp only [Bool.not_true, Bool.false_or, Bool.false_eq_true, if_false]
  rw [hTags]
  simp only [if_true]
  refine ⟨by first | rfl | trivial, ?_, placeholderThumb_ne_empty _,
    placeholderFeatured_ne_empty _, ?_⟩
  · rw [htail.2]
    exact (create_or_get_tags_state (data.tags.getD []) db).2
  · exact ⟨_, htail.1, rfl, rfl, rfl, rfl, rfl⟩

/-- An environment in which every media-host upload and every file-field
storage save fails. -/
def envNoImages : Env :=
  { envOk with
    cloudinaryUpload := fun _ _ => .error ()
    storageSave := fun _ _ => .error () }

/-- Witness for C9: all uploads failing on day 5 still yields a
published post with both placeholder URLs and no image rows. -/
theorem C9_witness :
    (handle envNoImages {} {}).outcome = .success ∧
    (handle envNoImages {} {}).db.postImages = [] ∧
    ∃ q : PostRec,
      (handle envNoImages {} {}).db.posts.filter
        (fun p => p.slug == "potting-mix-guide") = [q] ∧
      q.thumbnail = none ∧ q.featured_image = none ∧
      q.thumbnail_url = placeholderThumb "demo" ∧
      q.featured_image_url = placeholderFeatured "demo" ∧
      q.is_published = true := by
  have h := C9_placeholder_fallback envNoImages {} {} genOk
    "Complete Potting Mix Guide" "<h2>Intro</h2><p>Mixes.</p>"
    "A potting mix guide" "potting-mix-guide" rfl rfl rfl rfl rfl rfl rfl
    (fun _ _ => rfl) (fun _ _ => rfl) rfl (by decide)
  exact ⟨h.1, h.2.1, h.2.2.2.2⟩

/-- Witness for C2 (amended): a failing generator persists nothing, a
record missing `title` persists only the tag row. -/
theorem C2_witness :
    handle { envOk with jsonLoads := fun _ => none } {} {} =
      ⟨{}, .genFailed, true⟩ ∧
    handle envMissingTitle {} {} =
      ⟨{ tags := [{ name := "fern", slug := "fern" }] }, .failed, true⟩ :=
  ⟨(C2_generation_failure_amended { envOk with jsonLoads := fun _ => none }
      {} {} rfl).1 rfl,
   by
    have h := (C2_generation_failure_amended envMissingTitle {} {} rfl).2
      { genOk with title := none, tags := some ["fern"] } rfl (Or.inl rfl)
    exact h.1⟩

end AiBlog
